import Mathlib

/-!
Verification development for `discord-scatter-plot.py`, a one-shot script that
reads a Discord data export, normalizes all message timestamps into the user's
fixed UTC offset, buckets them into (calendar date, time of day) pairs and
renders a scatter plot into `out.png` / `out.svg`.

The script is embedded shallowly:

* Python `str` is Lean `String`; a `datetime` is represented by its wall-clock
  reading as a linear count of microseconds since 1970-01-01T00:00:00 together
  with its `tzinfo` UTC offset in minutes (`AwareTimestamp`).  The calendar
  encoding of CPython's `datetime` is an order-preserving bijection onto this
  linear count (via the standard civil-from-days/days-from-civil conversion),
  so field-level constructions of the script become arithmetic here:
  `datetime(d.year, d.month, d.day)` is the floor of the count to a multiple of
  86 400 000 000 (midnight of the same day), and
  `datetime(1970, 1, 1, d.hour, d.minute, d.second)` is the count's remainder
  modulo one day truncated to a whole second, since 1970-01-01 is linear day 0.
* `dateutil.parser.parse` is embedded for the ISO-8601 shapes found in Discord
  exports (`YYYY-MM-DD[T| ]HH:MM:SS[.f+][Z|±HH:MM]`); it yields `none` unless
  the string carries an explicit zone offset, the only case the development
  reasons about.
* `datetime.astimezone(tz)` for an aware value is CPython's wall-clock shift
  `self - self.utcoffset() + tz.utcoffset(...)`, written out linearly.
* Filesystem and matplotlib effects are data: `main` consumes an `Archive`
  describing what the script would observe on disk and returns the console
  lines, written image paths, figure geometry and process outcome.  A float
  figure dimension is modelled as the exact rational it approximates.
-/

/-- Zero-pad a natural number below 100 to two decimal digits: the Python
format spec `{minutes_frac:02d}` as used in `utc_string_from_minutes`. -/
def pad2 (n : Nat) : String :=
  if n < 10 then "0" ++ toString n else toString n

/-- Embedding of `utc_string_from_minutes` (lines 21-27).  The Python body
computes `minutes_frac, hours = math.modf(minutes / 60)` followed by
`minutes_frac = int(abs(numpy.fix(minutes_frac * 60)))`: `modf` splits the
float quotient into fractional and integral parts that both carry the sign of
the quotient, so `hours` is the quotient of `|minutes|` by 60 carrying the
sign of `minutes` (including IEEE negative zero, which `{hours:+.0f}` prints
as `-0`), and `minutes_frac` is `|minutes| mod 60`.  For offsets that are
multiples of 15 minutes — every real-world time-zone offset — `minutes / 60`
is an exact multiple of 0.25, so every float step is exact and this integer
model coincides with the float computation. -/
def utc_string_from_minutes (minutes : Int) : String :=
  let sign := if minutes < 0 then "-" else "+"
  let hours := minutes.natAbs / 60
  let minutes_frac := minutes.natAbs % 60
  if minutes_frac = 0 then
    "UTC" ++ sign ++ toString hours
  else
    "UTC" ++ sign ++ toString hours ++ ":" ++ pad2 minutes_frac

/-- The zone-label formatter actually applied to the stored profile offset:
line 50 is `user_timezone_name = utc_string_from_minutes(-tz_offset)`, the
composition of sign inversion with `utc_string_from_minutes`. -/
def zoneLabel (stored : Int) : String :=
  utc_string_from_minutes (-stored)

/-- Valid stored minute offsets: a whole number of quarter hours, at most one
day in magnitude.  Every time zone Discord can store satisfies this, and on
this domain the source's float arithmetic is exact (see
`utc_string_from_minutes`). -/
def ValidOffset (m : Int) : Prop :=
  m % 15 = 0 ∧ m.natAbs ≤ 1440

/-- An aware `datetime`: its wall-clock reading as microseconds since
1970-01-01T00:00:00 (of the wall clock itself, not of UTC), plus the fixed
UTC offset of its `tzinfo` in minutes. -/
structure AwareTimestamp where
  wallMicro : Int
  offsetMinutes : Int
deriving DecidableEq, Repr

/-- The absolute instant an aware `datetime` denotes, in microseconds since
the Unix epoch: wall-clock reading minus the UTC offset. -/
def instantMicro (t : AwareTimestamp) : Int :=
  t.wallMicro - t.offsetMinutes * 60000000

/-- Embedding of `datetime.astimezone(pytz.FixedOffset(off))` on an aware
value: CPython computes `tz.fromutc(self - self.utcoffset())`, i.e. it shifts
the wall clock by the difference of the two offsets and installs the new
`tzinfo`. -/
def astimezone (t : AwareTimestamp) (off : Int) : AwareTimestamp :=
  { wallMicro := t.wallMicro - t.offsetMinutes * 60000000 + off * 60000000,
    offsetMinutes := off }

/-- Gregorian leap-year test, as used by `datetime`'s calendar. -/
def isLeap (y : Nat) : Bool :=
  (y % 4 == 0 && y % 100 != 0) || y % 400 == 0

/-- Number of days in a month of the proleptic Gregorian calendar. -/
def daysInMonth (y m : Nat) : Nat :=
  if m = 2 then (if isLeap y then 29 else 28)
  else if m = 4 ∨ m = 6 ∨ m = 9 ∨ m = 11 then 30
  else 31

/-- Days since 1970-01-01 of a civil date (standard days-from-civil
conversion over 400-year eras; intended for `1 ≤ y`, as `datetime` requires). -/
def days_from_civil (y m d : Nat) : Int :=
  let yAdj : Nat := if m ≤ 2 then y - 1 else y
  let era : Nat := yAdj / 400
  let yoe : Nat := yAdj - era * 400
  let mp : Nat := if 3 ≤ m then m - 3 else m + 9
  let doy : Nat := (153 * mp + 2) / 5 + d - 1
  let doe : Nat := yoe * 365 + yoe / 4 - yoe / 100 + doy
  (era : Int) * 146097 + (doe : Int) - 719468

/-- Numeric value of a decimal digit character, `none` otherwise. -/
def digitVal (c : Char) : Option Nat :=
  if c.isDigit then some (c.toNat - 48) else none

/-- Parse exactly two decimal digits. -/
def parseNat2 : List Char → Option (Nat × List Char)
  | c1 :: c2 :: rest =>
    match digitVal c1, digitVal c2 with
    | some d1, some d2 => some (d1 * 10 + d2, rest)
    | _, _ => none
  | _ => none

/-- Parse exactly four decimal digits. -/
def parseNat4 : List Char → Option (Nat × List Char)
  | c1 :: c2 :: c3 :: c4 :: rest =>
    match digitVal c1, digitVal c2, digitVal c3, digitVal c4 with
    | some d1, some d2, some d3, some d4 =>
      some (((d1 * 10 + d2) * 10 + d3) * 10 + d4, rest)
    | _, _, _, _ => none
  | _ => none

/-- Consume one expected character. -/
def expectChar (c : Char) : List Char → Option (List Char)
  | d :: rest => if d = c then some rest else none
  | [] => none

/-- Consume the date/time separator accepted by `dateutil`: `T` or a space. -/
def expectSep : List Char → Option (List Char)
  | d :: rest => if d = 'T' ∨ d = ' ' then some rest else none
  | [] => none

/-- Decimal value of a digit string. -/
def digitsToNat (l : List Char) : Nat :=
  l.foldl (fun acc c => acc * 10 + (c.toNat - 48)) 0

/-- Parse an optional fractional-seconds part into microseconds, scaling the
digits to six places as `dateutil` does (extra digits beyond six are
dropped). -/
def parseFrac : List Char → Option (Nat × List Char)
  | '.' :: rest =>
    let ds := rest.takeWhile Char.isDigit
    if ds.isEmpty then none
    else some (digitsToNat (ds.take 6) * 10 ^ (6 - min 6 ds.length),
               rest.dropWhile Char.isDigit)
  | cs => some (0, cs)

/-- Parse the magnitude `HH:MM` of a numeric zone offset, already signed. -/
def parseOffsetMag (sign : Int) (cs : List Char) : Option (Int × List Char) :=
  match parseNat2 cs with
  | none => none
  | some (h, cs1) =>
    match expectChar ':' cs1 with
    | none => none
    | some cs2 =>
      match parseNat2 cs2 with
      | none => none
      | some (m, cs3) =>
        if h < 24 ∧ m < 60 then some (sign * (h * 60 + m : Nat), cs3) else none

/-- Parse an explicit zone suffix: `Z` or `±HH:MM`. -/
def parseZone : List Char → Option (Int × List Char)
  | 'Z' :: rest => some (0, rest)
  | '+' :: rest => parseOffsetMag 1 rest
  | '-' :: rest => parseOffsetMag (-1) rest
  | _ => none

/-- Embedding of `dateutil.parser.parse` (line 60) restricted to the ISO-8601
timestamp shapes present in Discord data exports,
`YYYY-MM-DD[T| ]HH:MM:SS[.fraction][Z|±HH:MM]`, and to strings carrying an
explicit zone offset — the parser returns `none` otherwise.  Field bounds are
validated exactly as the `datetime` constructor would. -/
def parseTs (s : String) : Option AwareTimestamp := do
  let (y, cs1) ← parseNat4 s.data
  let cs2 ← expectChar '-' cs1
  let (mo, cs3) ← parseNat2 cs2
  let cs4 ← expectChar '-' cs3
  let (d, cs5) ← parseNat2 cs4
  let cs6 ← expectSep cs5
  let (h, cs7) ← parseNat2 cs6
  let cs8 ← expectChar ':' cs7
  let (mi, cs9) ← parseNat2 cs8
  let cs10 ← expectChar ':' cs9
  let (sec, cs11) ← parseNat2 cs10
  let (us, cs12) ← parseFrac cs11
  let (off, cs13) ← parseZone cs12
  if cs13.isEmpty ∧ 1 ≤ y ∧ 1 ≤ mo ∧ mo ≤ 12 ∧ 1 ≤ d ∧ d ≤ daysInMonth y mo
      ∧ h < 24 ∧ mi < 60 ∧ sec < 60 then
    some { wallMicro := days_from_civil y mo d * 86400000000
                          + ((h * 3600 + mi * 60 + sec) * 1000000 + us : Nat),
           offsetMinutes := off }
  else none

/-- One entry of a `messages.json` array.  The only key the script reads is
`"Timestamp"`; `none` models a record missing that key (a `KeyError` on
access). -/
structure MessageRecord where
  Timestamp : Option String
deriving DecidableEq, Repr

/-- The fields of `account/user.json` that the script reads.  `none` models a
missing key along the respective access path (`user_info["global_name"]`,
`user_info["settings"]["settings"]["localization"]["timezoneOffset"]`), which
raises `KeyError`. -/
structure UserInfo where
  global_name : Option String
  timezoneOffset : Option Int
deriving DecidableEq, Repr

/-- What the script observes on disk under the archive root: whether the two
checked paths exist, the decoded `user.json`, and the decoded contents of each
discovered `messages.json` in `glob` traversal order (`none` for a file whose
JSON fails to decode). -/
structure Archive where
  root : String
  userJsonExists : Bool
  messagesDirExists : Bool
  userInfo : UserInfo
  messageFiles : List (Option (List MessageRecord))
deriving DecidableEq, Repr

/-- Uncaught Python exceptions the script can raise. -/
inductive PyError where
  | keyError (key : String)
  | jsonDecodeError
  | parserError (s : String)
  | valueError (msg : String)
deriving DecidableEq, Repr

/-- How the process ends: falling off `main` (status 0), `sys.exit(code)`, or
an uncaught exception (traceback; status 1 at the OS level). -/
inductive PyExit where
  | success
  | sysExit (code : Nat)
  | exn (e : PyError)
deriving DecidableEq, Repr

/-- OS-level exit status of each outcome. -/
def exitCode : PyExit → Nat
  | .success => 0
  | .sysExit c => c
  | .exn _ => 1

/-- Geometry and content handed to matplotlib: `figsize`, the scattered
points as (date bucket, time bucket) pairs, and the title. -/
structure Figure where
  width : ℚ
  height : ℚ
  points : List (Int × Int)
  title : String
deriving DecidableEq, Repr

/-- Observable behaviour of one run: console lines in order, image paths
written in order, the figure if one was built, and the outcome. -/
structure RunResult where
  printed : List String
  images : List String
  figure : Option Figure
  outcome : PyExit
deriving DecidableEq, Repr

/-- Line 49, `pytz.FixedOffset(-tz_offset)`: the fixed zone used for
normalization is the negation of the stored offset, in minutes east of UTC. -/
def userTimezone (tz_offset : Int) : Int :=
  -tz_offset

/-- Normalization of one message record (line 60):
`dateutil.parser.parse(msg["Timestamp"]).astimezone(user_timezone)`.
A missing key raises `KeyError`, an unparsable string raises `ParserError`. -/
def normalizeMsg (off : Int) (r : MessageRecord) : Except PyError AwareTimestamp :=
  match r.Timestamp with
  | none => .error (.keyError ("Timestamp"))
  | some s =>
    match parseTs s with
    | none => .error (.parserError s)
    | some dt => .ok (astimezone dt off)

/-- The inner loop of lines 59-61 over one decoded file, in order. -/
def parseFileMsgs (off : Int) : List MessageRecord → Except PyError (List AwareTimestamp)
  | [] => .ok []
  | r :: rs =>
    match normalizeMsg off r with
    | .error e => .error e
    | .ok d =>
      match parseFileMsgs off rs with
      | .error e => .error e
      | .ok ds => .ok (d :: ds)

/-- The outer loop of lines 56-61: each discovered file is decoded
(`json.load`, which raises on malformed JSON) and its records normalized and
appended to `message_dates`, file by file. -/
def parseAll (off : Int) : List (Option (List MessageRecord)) → Except PyError (List AwareTimestamp)
  | [] => .ok []
  | none :: _ => .error .jsonDecodeError
  | some ms :: rest =>
    match parseFileMsgs off ms with
    | .error e => .error e
    | .ok ds =>
      match parseAll off rest with
      | .error e => .error e
      | .ok ds2 => .ok (ds ++ ds2)

/-- All message records of the archive in traversal order (meaningful when
every file decodes, which `parseAll` succeeding guarantees). -/
def allRecords (files : List (Option (List MessageRecord))) : List MessageRecord :=
  (files.map (fun f => f.getD [])).flatten

/-- Line 69, `datetime(date.year, date.month, date.day)`: midnight of the
normalized timestamp's calendar day, i.e. its wall-clock count floored to a
whole day. -/
def only_date (date : AwareTimestamp) : Int :=
  (date.wallMicro / 86400000000) * 86400000000

/-- Line 70, `datetime(1970, 1, 1, date.hour, date.minute, date.second)`: the
time of day anchored to the epoch day, i.e. the wall-clock count's remainder
within its day, truncated to a whole second. -/
def only_time (date : AwareTimestamp) : Int :=
  ((date.wallMicro % 86400000000) / 1000000) * 1000000

/-- The loop of lines 66-72 building the parallel `dates` and `times`
sequences. -/
def bucketize : List AwareTimestamp → List Int × List Int
  | [] => ([], [])
  | date :: rest =>
    let (ds, ts) := bucketize rest
    (only_date date :: ds, only_time date :: ts)

/-- Recombination of a date bucket and a time bucket, taking the calendar day
from the former and the time of day from the latter; as the time bucket is
anchored to linear day 0, this is plain addition of the linear counts. -/
def recombine (d t : Int) : Int :=
  d + t

/-- A wall-clock count truncated to a whole second (microseconds dropped). -/
def truncToSecond (w : Int) : Int :=
  (w / 1000000) * 1000000

/-- Python's `max` over a list of comparables, `none` on the empty list
(where CPython raises `ValueError`). -/
def listMax : List Int → Option Int
  | [] => none
  | x :: xs =>
    match listMax xs with
    | none => some x
    | some m => some (max x m)

/-- Python's `min` over a list of comparables, `none` on the empty list. -/
def listMin : List Int → Option Int
  | [] => none
  | x :: xs =>
    match listMin xs with
    | none => some x
    | some m => some (min x m)

/-- Line 83, `figsize=((max(dates) - min(dates)).days / 200, 3)`: width is the
day span of the date buckets divided by 200, height is fixed at 3; `none` when
the empty sequence makes `max` raise. -/
def figsize (dates : List Int) : Option (ℚ × ℚ) :=
  match listMax dates, listMin dates with
  | some mx, some mn => some ((((mx - mn) / 86400000000 : Int) : ℚ) / 200, 3)
  | _, _ => none

/-- The diagnostic printed at line 38 for an invalid archive root. -/
def invalidDiag (a : Archive) : String :=
  a.root ++ " is not a valid discord data archive"

/-- Embedding of the Python `main` function (lines 30-115) over an `Archive`
(the name `main` itself is reserved by Lean): path checks, profile
field reads, the parse loop, bucketizing, figure construction and the two
image writes, with every console line and the process outcome recorded. -/
def runMain (a : Archive) : RunResult :=
  if !a.userJsonExists || !a.messagesDirExists then
    { printed := [invalidDiag a], images := [], figure := none, outcome := .sysExit 1 }
  else
    match a.userInfo.global_name with
    | none =>
      { printed := [], images := [], figure := none,
        outcome := .exn (.keyError ("global_name")) }
    | some user_name =>
      match a.userInfo.timezoneOffset with
      | none =>
        { printed := ["discord user: " ++ user_name], images := [], figure := none,
          outcome := .exn (.keyError ("timezoneOffset")) }
      | some tz_offset =>
        let user_timezone := userTimezone tz_offset
        let user_timezone_name := utc_string_from_minutes (-tz_offset)
        let printed0 := ["discord user: " ++ user_name, "finding messages…",
                         "parsing messages…"]
        match parseAll user_timezone a.messageFiles with
        | .error e =>
          { printed := printed0, images := [], figure := none, outcome := .exn e }
        | .ok message_dates =>
          let printed1 := printed0 ++
            ["total messages: " ++ toString message_dates.length,
             "processing dates…", "creating graph…"]
          let (dates, times) := bucketize message_dates
          match figsize dates with
          | none =>
            { printed := printed1, images := [], figure := none,
              outcome := .exn (.valueError ("max() arg is an empty sequence")) }
          | some wh =>
            { printed := printed1 ++ ["rendering png…", "rendering svg…", "done!"],
              images := [a.root ++ "/out.png", a.root ++ "/out.svg"],
              figure := some { width := wh.1, height := wh.2,
                               points := dates.zip times,
                               title := "When does " ++ user_name ++
                                 " post on Discord? (" ++ user_timezone_name ++ ")" },
              outcome := .success }

/-! ### Helper lemmas -/

/-- The bucketizing loop produces the two mapped sequences. -/
theorem bucketize_eq (l : List AwareTimestamp) :
    bucketize l = (l.map only_date, l.map only_time) := by
  induction l with
  | nil => rfl
  | cons d rest ih => simp [bucketize, ih]

/-- A successful run of the inner message loop normalizes the records of the
file one by one, in order. -/
theorem parseFileMsgs_ok {off : Int} {ms : List MessageRecord}
    {l : List AwareTimestamp} (h : parseFileMsgs off ms = .ok l) :
    List.Forall₂ (fun r d => normalizeMsg off r = .ok d) ms l := by
  induction ms generalizing l with
  | nil =>
    simp [parseFileMsgs] at h
    subst h
    exact List.Forall₂.nil
  | cons r rs ih =>
    cases hm : normalizeMsg off r with
    | error e => simp [parseFileMsgs, hm] at h
    | ok d =>
      cases hrec : parseFileMsgs off rs with
      | error e => simp [parseFileMsgs, hm, hrec] at h
      | ok ds =>
        simp only [parseFileMsgs, hm, hrec, Except.ok.injEq] at h
        subst h
        exact List.Forall₂.cons hm (ih hrec)

/-- A successful run of the file loop normalizes all records of all decoded
files, in traversal order. -/
theorem parseAll_ok {off : Int} {files : List (Option (List MessageRecord))}
    {l : List AwareTimestamp} (h : parseAll off files = .ok l) :
    List.Forall₂ (fun r d => normalizeMsg off r = .ok d) (allRecords files) l := by
  induction files generalizing l with
  | nil =>
    simp [parseAll] at h
    subst h
    exact List.Forall₂.nil
  | cons f rest ih =>
    cases f with
    | none => simp [parseAll] at h
    | some ms =>
      cases hms : parseFileMsgs off ms with
      | error e => simp [parseAll, hms] at h
      | ok ds =>
        cases hrest : parseAll off rest with
        | error e => simp [parseAll, hms, hrest] at h
        | ok ds2 =>
          simp only [parseAll, hms, hrest, Except.ok.injEq] at h
          subst h
          have hrec : allRecords (some ms :: rest) = ms ++ allRecords rest := by
            simp [allRecords]
          rw [hrec]
          exact List.rel_append (parseFileMsgs_ok hms) (ih hrest)

/-- `max` over a non-empty list succeeds and returns a greatest element. -/
theorem listMax_spec (l : List Int) :
    l ≠ [] → ∃ m, listMax l = some m ∧ m ∈ l ∧ ∀ x ∈ l, x ≤ m := by
  induction l with
  | nil => intro h; exact absurd rfl h
  | cons x xs ih =>
    intro _
    cases xs with
    | nil => exact ⟨x, rfl, by simp, by simp⟩
    | cons y ys =>
      obtain ⟨m, hm, hmem, hall⟩ := ih (by simp)
      refine ⟨max x m, by rw [listMax, hm], ?_, ?_⟩
      · rcases max_choice x m with h | h <;> rw [h]
        · exact List.mem_cons_self _ _
        · exact List.mem_cons_of_mem _ hmem
      · intro z hz
        rcases List.mem_cons.mp hz with rfl | hz'
        · exact le_max_left _ _
        · exact le_trans (hall z hz') (le_max_right _ _)

/-- `min` over a non-empty list succeeds and returns a least element. -/
theorem listMin_spec (l : List Int) :
    l ≠ [] → ∃ m, listMin l = some m ∧ m ∈ l ∧ ∀ x ∈ l, m ≤ x := by
  induction l with
  | nil => intro h; exact absurd rfl h
  | cons x xs ih =>
    intro _
    cases xs with
    | nil => exact ⟨x, rfl, by simp, by simp⟩
    | cons y ys =>
      obtain ⟨m, hm, hmem, hall⟩ := ih (by simp)
      refine ⟨min x m, by rw [listMin, hm], ?_, ?_⟩
      · rcases min_choice x m with h | h <;> rw [h]
        · exact List.mem_cons_self _ _
        · exact List.mem_cons_of_mem _ hmem
      · intro z hz
        rcases List.mem_cons.mp hz with rfl | hz'
        · exact min_le_left _ _
        · exact le_trans (min_le_right _ _) (hall z hz')

/-- Every decimal rendering of a number up to 24 — the largest hour count a
valid offset can produce — is colon-free. -/
theorem toStringNatNoColon (n : Nat) (h : n ≤ 24) :
    ∀ c ∈ (toString n).data, c ≠ ':' := by
  interval_cases n <;> decide

/-! ### Claim theorems -/

/-- C2: for every normalized timestamp, recombining its Date Bucket (the
calendar day) with its Time Bucket (the time of day anchored to the epoch
day) yields exactly the normalized timestamp's wall-clock reading truncated
to the second. -/
theorem c2_buckets_recombine (d : AwareTimestamp) :
    recombine (only_date d) (only_time d) = truncToSecond d.wallMicro := by
  unfold recombine only_date only_time truncToSecond
  omega

/-- C6: for every timestamp string that parses (hence carries an explicit zone
offset), converting the parsed value to any fixed offset with `astimezone`
preserves the denoted absolute instant, and only the offset representation
changes. -/
theorem c6_astimezone_preserves_instant (s : String) (t : AwareTimestamp)
    (off : Int) (h : parseTs s = some t) :
    instantMicro (astimezone t off) = instantMicro t ∧
    (astimezone t off).offsetMinutes = off := by
  unfold instantMicro astimezone
  exact ⟨by ring, rfl⟩

/-- A concrete Discord-export timestamp string used by several witnesses. -/
def sampleTs : String := "2016-07-30 11:13:42.87+00:00"

/-- The parse of `sampleTs`: 2016-07-30T11:13:42.870000 at UTC. -/
def sampleParsed : AwareTimestamp :=
  { wallMicro := 1469877222870000, offsetMinutes := 0 }

/-- Witness for C6 at a concrete parsed string and target offset 60. -/
theorem c6_witness :
    instantMicro (astimezone sampleParsed 60) = instantMicro sampleParsed ∧
    (astimezone sampleParsed 60).offsetMinutes = 60 :=
  c6_astimezone_preserves_instant sampleTs sampleParsed 60 (by decide)

/-- C5: every message record is normalized with the fixed zone
`pytz.FixedOffset(-tz_offset)`, the negation of the stored profile offset, so
the normalized timestamp carries offset `-o` exactly; a stored value of `-60`
gives the fixed offset `+60` minutes, labelled `UTC+1`. -/
theorem c5_inverted_offset (o : Int) (r : MessageRecord) (s : String)
    (t : AwareTimestamp) (hr : r.Timestamp = some s) (hp : parseTs s = some t) :
    normalizeMsg (userTimezone o) r = .ok (astimezone t (-o)) ∧
    (astimezone t (-o)).offsetMinutes = -o ∧
    userTimezone (-60) = 60 ∧
    zoneLabel (-60) = "UTC+1" := by
  simp only [normalizeMsg, userTimezone, hr, hp]
  exact ⟨trivial, rfl, rfl, by decide⟩

/-- Witness for C5 at the sample record and a stored offset of -60. -/
theorem c5_witness :
    normalizeMsg (userTimezone (-60)) { Timestamp := some sampleTs } =
      .ok (astimezone sampleParsed (-(-60))) ∧
    (astimezone sampleParsed (-(-60))).offsetMinutes = -(-60) ∧
    userTimezone (-60) = 60 ∧
    zoneLabel (-60) = "UTC+1" :=
  c5_inverted_offset (-60) { Timestamp := some sampleTs } sampleTs sampleParsed
    rfl (by decide)

/-- C4: an archive root missing the profile file or the messages directory
makes the run print exactly the diagnostic naming that root, write no images
and leave via `sys.exit(1)`; any run whose outcome is falling off the end of
`main` has OS exit status 0. -/
theorem c4_invalid_archive (a : Archive) :
    ((a.userJsonExists = false ∨ a.messagesDirExists = false) →
      runMain a = { printed := [invalidDiag a], images := [], figure := none,
                    outcome := .sysExit 1 }) ∧
    ((runMain a).outcome = .success → exitCode (runMain a).outcome = 0) := by
  constructor
  · intro h
    unfold runMain
    rcases h with h | h <;> rw [h] <;> simp
  · intro h
    rw [h]
    rfl

/-- A concrete archive root with the messages directory but no profile file. -/
def invalidArchive : Archive :=
  { root := "/archive", userJsonExists := false, messagesDirExists := true,
    userInfo := { global_name := some "user", timezoneOffset := some 0 },
    messageFiles := [] }

/-- Witness for C4 at a concrete invalid archive. -/
theorem c4_witness :
    runMain invalidArchive = { printed := [invalidDiag invalidArchive],
                               images := [], figure := none,
                               outcome := .sysExit 1 } :=
  (c4_invalid_archive invalidArchive).1 (Or.inl rfl)

/-- Closed form of the zone label: `UTC`, a sign (negative exactly for a
positive stored offset), the truncated hour count, and the minutes component
exactly when nonzero. -/
theorem zoneLabel_eq (m : Int) :
    zoneLabel m = "UTC" ++ (if 0 < m then "-" else "+") ++
      toString (m.natAbs / 60) ++
      (if m.natAbs % 60 = 0 then "" else ":" ++ pad2 (m.natAbs % 60)) := by
  have hna : (-m).natAbs = m.natAbs := Int.natAbs_neg m
  have hneg : (-m < 0) ↔ (0 < m) := by omega
  simp only [zoneLabel, utc_string_from_minutes, hna]
  by_cases hs : 0 < m <;> by_cases hz : m.natAbs % 60 = 0 <;>
    simp [hneg, hs, hz, String.append_assoc]

/-- C1: the zone-label formatter (sign inversion composed with
`utc_string_from_minutes`) yields `UTC+0` for stored 0, `UTC+1` for stored
-60 and `UTC-5:30` for stored 330; for every valid stored offset the label is
`UTC` followed by an explicit sign character on the hour component, the
minutes component is omitted exactly when `|m| mod 60` is zero, and otherwise
appears after a colon, zero-padded to two digits. -/
theorem c1_zone_label_format (m : Int) (hv : ValidOffset m) :
    zoneLabel 0 = "UTC+0" ∧ zoneLabel (-60) = "UTC+1" ∧
    zoneLabel 330 = "UTC-5:30" ∧
    (∃ rest : List Char, (zoneLabel m).data = 'U' :: 'T' :: 'C' :: '+' :: rest ∨
      (zoneLabel m).data = 'U' :: 'T' :: 'C' :: '-' :: rest) ∧
    (m.natAbs % 60 = 0 → ∀ c ∈ (zoneLabel m).data, c ≠ ':') ∧
    (m.natAbs % 60 ≠ 0 →
      ∃ pre : String, zoneLabel m = pre ++ ":" ++ pad2 (m.natAbs % 60) ∧
        (pad2 (m.natAbs % 60)).length = 2) := by
  obtain ⟨h15, hbound⟩ := hv
  have hhour : m.natAbs / 60 ≤ 24 := by omega
  refine ⟨by decide, by decide, by decide, ?_, ?_, ?_⟩
  · rw [zoneLabel_eq]
    by_cases hs : 0 < m
    · rw [if_pos hs]
      refine ⟨(toString (m.natAbs / 60) ++
        (if m.natAbs % 60 = 0 then "" else ":" ++ pad2 (m.natAbs % 60))).data,
        Or.inr ?_⟩
      simp
    · rw [if_neg hs]
      refine ⟨(toString (m.natAbs / 60) ++
        (if m.natAbs % 60 = 0 then "" else ":" ++ pad2 (m.natAbs % 60))).data,
        Or.inl ?_⟩
      simp
  · intro hz
    rw [zoneLabel_eq, if_pos hz, String.append_empty]
    by_cases hs : 0 < m
    · rw [if_pos hs]
      intro c hc
      simp at hc
      rcases hc with rfl | rfl | rfl | rfl | hc
      · decide
      · decide
      · decide
      · decide
      · exact toStringNatNoColon _ hhour c hc
    · rw [if_neg hs]
      intro c hc
      simp at hc
      rcases hc with rfl | rfl | rfl | rfl | hc
      · decide
      · decide
      · decide
      · decide
      · exact toStringNatNoColon _ hhour c hc
  · intro hnz
    have hmem : m.natAbs % 60 = 15 ∨ m.natAbs % 60 = 30 ∨ m.natAbs % 60 = 45 := by
      omega
    refine ⟨"UTC" ++ (if 0 < m then "-" else "+") ++ toString (m.natAbs / 60),
      ?_, ?_⟩
    · rw [zoneLabel_eq, if_neg hnz]
      simp [String.append_assoc]
    · rcases hmem with h | h | h <;> rw [h] <;> decide

/-- Witness for C1 at the stored offset 330 of the specification. -/
theorem c1_witness :
    ValidOffset 330 ∧ zoneLabel 330 = "UTC-5:30" :=
  ⟨⟨by decide, by decide⟩,
    (c1_zone_label_format 330 ⟨by decide, by decide⟩).2.2.1⟩

/-- A concrete valid archive containing zero message records. -/
def emptyArchive : Archive :=
  { root := "/archive", userJsonExists := true, messagesDirExists := true,
    userInfo := { global_name := some "user", timezoneOffset := some 0 },
    messageFiles := [] }

/-- C3 counterexample: on a valid archive with zero discovered messages the
run does not report a defined, guarded error — it dies with the uncaught
`ValueError` that `max(dates)` raises on the empty sequence (and not via the
defined `sys.exit(1)` branch), producing no plot. -/
theorem c3_counterexample :
    (runMain emptyArchive).outcome =
      .exn (.valueError ("max() arg is an empty sequence")) ∧
    (runMain emptyArchive).outcome ≠ .sysExit 1 ∧
    (runMain emptyArchive).figure = none ∧
    (runMain emptyArchive).images = [] := by
  decide

/-- C3 as amended: whenever zero message records are discovered on a valid
archive, the min/max computations are reached unguarded and the run ends in
the uncaught `ValueError` from `max()` on an empty sequence, before any plot
or image is produced. -/
theorem c3_empty_crashes_unguarded (a : Archive) (un : String) (o : Int)
    (h1 : a.userJsonExists = true) (h2 : a.messagesDirExists = true)
    (hn : a.userInfo.global_name = some un)
    (ho : a.userInfo.timezoneOffset = some o)
    (hp : parseAll (userTimezone o) a.messageFiles = .ok []) :
    (runMain a).outcome = .exn (.valueError ("max() arg is an empty sequence")) ∧
    (runMain a).images = [] ∧ (runMain a).figure = none := by
  simp [runMain, h1, h2, hn, ho, hp, bucketize, figsize, listMax]

/-- Witness for the amended C3 at the concrete empty archive. -/
theorem c3_witness :
    (runMain emptyArchive).outcome =
      .exn (.valueError ("max() arg is an empty sequence")) ∧
    (runMain emptyArchive).images = [] ∧ (runMain emptyArchive).figure = none :=
  c3_empty_crashes_unguarded emptyArchive "user" 0 rfl rfl rfl rfl rfl

/-- C9: if normalization fails on any file or record — a file that does not
decode, a record without a timestamp, or a timestamp that does not parse —
the run ends with that uncaught error and no image path is ever written: all
reading, decoding and normalizing happens before the first output write. -/
theorem c9_malformed_input_atomicity (a : Archive) (un : String) (o : Int)
    (e : PyError)
    (h1 : a.userJsonExists = true) (h2 : a.messagesDirExists = true)
    (hn : a.userInfo.global_name = some un)
    (ho : a.userInfo.timezoneOffset = some o)
    (hp : parseAll (userTimezone o) a.messageFiles = .error e) :
    (runMain a).images = [] ∧ (runMain a).figure = none ∧
    (runMain a).outcome = .exn e := by
  simp [runMain, h1, h2, hn, ho, hp]

/-- A concrete archive whose second message file fails to decode. -/
def malformedArchive : Archive :=
  { root := "/archive", userJsonExists := true, messagesDirExists := true,
    userInfo := { global_name := some "user", timezoneOffset := some (-60) },
    messageFiles := [some [{ Timestamp := some sampleTs }], none] }

/-- Witness for C9 at the concrete malformed archive. -/
theorem c9_witness :
    (runMain malformedArchive).images = [] ∧
    (runMain malformedArchive).figure = none ∧
    (runMain malformedArchive).outcome = .exn .jsonDecodeError :=
  c9_malformed_input_atomicity malformedArchive "user" (-60) .jsonDecodeError
    rfl rfl rfl rfl (by rfl)

/-- C10: a profile lacking the display-name field or the nested minute-offset
field, or a record lacking its timestamp field, makes the run die with an
uncaught `KeyError`; it never prints the invalid-archive diagnostic (the
printed lines are exactly those preceding the failing access) and never takes
the defined `sys.exit(1)` branch. -/
theorem c10_missing_key_uncaught (a : Archive)
    (h1 : a.userJsonExists = true) (h2 : a.messagesDirExists = true) :
    (a.userInfo.global_name = none →
      runMain a = { printed := [], images := [], figure := none,
                    outcome := .exn (.keyError ("global_name")) } ∧
      (runMain a).outcome ≠ .sysExit 1) ∧
    (∀ un, a.userInfo.global_name = some un →
      a.userInfo.timezoneOffset = none →
      runMain a = { printed := ["discord user: " ++ un], images := [],
                    figure := none,
                    outcome := .exn (.keyError ("timezoneOffset")) } ∧
      (runMain a).outcome ≠ .sysExit 1) ∧
    (∀ off r, r.Timestamp = none →
      normalizeMsg off r = .error (.keyError ("Timestamp"))) ∧
    (∀ un o, a.userInfo.global_name = some un →
      a.userInfo.timezoneOffset = some o →
      parseAll (userTimezone o) a.messageFiles = .error (.keyError ("Timestamp")) →
      (runMain a).outcome = .exn (.keyError ("Timestamp")) ∧
      (runMain a).outcome ≠ .sysExit 1) := by
  refine ⟨?_, ?_, ?_, ?_⟩
  · intro hn
    constructor
    · simp [runMain, h1, h2, hn]
    · simp [runMain, h1, h2, hn]
  · intro un hn ho
    constructor
    · simp [runMain, h1, h2, hn, ho]
    · simp [runMain, h1, h2, hn, ho]
  · intro off r hT
    simp [normalizeMsg, hT]
  · intro un o hn ho hp
    constructor
    · simp [runMain, h1, h2, hn, ho, hp]
    · simp [runMain, h1, h2, hn, ho, hp]

/-- A concrete archive whose profile lacks the display-name field. -/
def noNameArchive : Archive :=
  { root := "/archive", userJsonExists := true, messagesDirExists := true,
    userInfo := { global_name := none, timezoneOffset := some 0 },
    messageFiles := [] }

/-- Witness for C10 at the concrete profile missing its display name. -/
theorem c10_witness :
    runMain noNameArchive = { printed := [], images := [], figure := none,
                              outcome := .exn (.keyError ("global_name")) } ∧
    (runMain noNameArchive).outcome ≠ .sysExit 1 :=
  (c10_missing_key_uncaught noNameArchive rfl rfl).1 rfl

/-- C7: after bucketizing, the `dates` and `times` sequences have the same
length as `message_dates`, position `i` of each is the respective bucket of
the `i`-th normalized timestamp, and the `i`-th normalized timestamp is in
turn the normalization of the `i`-th source message record in traversal
order — insertion order is preserved throughout. -/
theorem c7_parallel_sequences (off : Int)
    (files : List (Option (List MessageRecord)))
    (message_dates : List AwareTimestamp)
    (h : parseAll off files = .ok message_dates) :
    (bucketize message_dates).1.length = message_dates.length ∧
    (bucketize message_dates).2.length = message_dates.length ∧
    (allRecords files).length = message_dates.length ∧
    (∀ i : Nat,
      (bucketize message_dates).1.get? i =
        (message_dates.get? i).map only_date ∧
      (bucketize message_dates).2.get? i =
        (message_dates.get? i).map only_time) ∧
    (∀ i r d, (allRecords files).get? i = some r →
      message_dates.get? i = some d → normalizeMsg off r = .ok d) := by
  have hf := parseAll_ok h
  have hb := bucketize_eq message_dates
  refine ⟨by rw [hb]; simp, by rw [hb]; simp, hf.length_eq, ?_, ?_⟩
  · intro i
    rw [hb]
    constructor <;> simp [List.get?_map]
  · intro i r d hr hd
    rw [List.forall₂_iff_get] at hf
    obtain ⟨hbr, hgr⟩ := List.get?_eq_some.mp hr
    obtain ⟨hbd, hgd⟩ := List.get?_eq_some.mp hd
    have hR := hf.2 i hbr hbd
    rw [hgr, hgd] at hR
    exact hR

/-- The message-file list of the C7 witness: one file with one record. -/
def oneMsgFiles : List (Option (List MessageRecord)) :=
  [some [{ Timestamp := some sampleTs }]]

/-- The normalized timestamps the script derives from `oneMsgFiles` at fixed
offset +60. -/
def oneMsgDates : List AwareTimestamp :=
  [{ wallMicro := 1469880822870000, offsetMinutes := 60 }]

/-- Witness for C7 at the concrete one-message archive contents. -/
theorem c7_witness :
    (bucketize oneMsgDates).1.length = oneMsgDates.length ∧
    (bucketize oneMsgDates).2.length = oneMsgDates.length ∧
    (allRecords oneMsgFiles).length = oneMsgDates.length :=
  ⟨(c7_parallel_sequences 60 oneMsgFiles oneMsgDates (by rfl)).1,
   (c7_parallel_sequences 60 oneMsgFiles oneMsgDates (by rfl)).2.1,
   (c7_parallel_sequences 60 oneMsgFiles oneMsgDates (by rfl)).2.2.1⟩

/-- C8: for every non-empty message list, `min` and `max` over the date
buckets succeed with a least and a greatest bucket, and the figure size is
exactly (day span between them divided by 200, fixed height 3). -/
theorem c8_figsize_day_span (msgs : List AwareTimestamp) (hne : msgs ≠ []) :
    ∃ mn mx, listMin (bucketize msgs).1 = some mn ∧
      listMax (bucketize msgs).1 = some mx ∧
      mn ∈ (bucketize msgs).1 ∧ mx ∈ (bucketize msgs).1 ∧
      (∀ x ∈ (bucketize msgs).1, mn ≤ x ∧ x ≤ mx) ∧
      figsize (bucketize msgs).1 =
        some ((((mx - mn) / 86400000000 : Int) : ℚ) / 200, 3) := by
  have hne2 : (bucketize msgs).1 ≠ [] := by
    rw [bucketize_eq]
    simp [hne]
  obtain ⟨mx, hmx, hmxmem, hmxall⟩ := listMax_spec _ hne2
  obtain ⟨mn, hmn, hmnmem, hmnall⟩ := listMin_spec _ hne2
  refine ⟨mn, mx, hmn, hmx, hmnmem, hmxmem, ?_, ?_⟩
  · intro x hx
    exact ⟨hmnall x hx, hmxall x hx⟩
  · unfold figsize
    rw [hmx, hmn]

/-- Two messages two days apart (with a stray five microseconds), for the C8
witness. -/
def twoDayMsgs : List AwareTimestamp :=
  [{ wallMicro := 0, offsetMinutes := 0 },
   { wallMicro := 172800000005, offsetMinutes := 0 }]

/-- Witness for C8 at the concrete two-day message list. -/
theorem c8_witness :
    ∃ mn mx, listMin (bucketize twoDayMsgs).1 = some mn ∧
      listMax (bucketize twoDayMsgs).1 = some mx ∧
      mn ∈ (bucketize twoDayMsgs).1 ∧ mx ∈ (bucketize twoDayMsgs).1 ∧
      (∀ x ∈ (bucketize twoDayMsgs).1, mn ≤ x ∧ x ≤ mx) ∧
      figsize (bucketize twoDayMsgs).1 =
        some ((((mx - mn) / 86400000000 : Int) : ℚ) / 200, 3) :=
  c8_figsize_day_span twoDayMsgs (by decide)
